import Mathlib

/-!
Shallow embedding of the SoapBoxDerbyCar Arduino firmware.

Each definition below is translated from one function of the C++ source
(the .ino/.hpp files of the repository).  Hardware reads (digitalRead,
analogRead, millis) are modelled as explicit inputs; side effects on the
member variables of the SoapBoxDerbyCar singleton are modelled as explicit
state passing.  Machine integers are modelled as Int/Nat (the quantities
involved stay far from the 16/32-bit bounds of the AVR target); C++
truncating integer division is Int.tdiv.  Serial prints, LEDs and delays
carry no state that the claims mention and are omitted.
-/

namespace SoapBoxDerbyCar

/-! ## Constants (SoapBoxDerbyCar.hpp) -/

/-- OFF constant (SoapBoxDerbyCar.hpp). -/
def OFF : Int := 0

/-- MIN_OUTPUT_PERCENTAGE constant (SoapBoxDerbyCar.hpp). -/
def MIN_OUTPUT_PERCENTAGE : Int := 10

/-- AUTO_TURN_LEFT_SPEED constant (SoapBoxDerbyCar.hpp). -/
def AUTO_TURN_LEFT_SPEED : Int := -80

/-- AUTO_TURN_RIGHT_SPEED constant (SoapBoxDerbyCar.hpp). -/
def AUTO_TURN_RIGHT_SPEED : Int := 80

/-- AUTO_HALL_SENSOR_LAUNCH_COUNT constant (SoapBoxDerbyCar.hpp). -/
def AUTO_HALL_SENSOR_LAUNCH_COUNT : Nat := 3

/-- POTENTIOMETER_MAX_JITTER_VALUE constant (SoapBoxDerbyCar.hpp). -/
def POTENTIOMETER_MAX_JITTER_VALUE : Int := 5

/-- MAX_DATA_LOG_ENTRIES = 2 * 60 * 2 (SoapBoxDerbyCar.hpp). -/
def MAX_DATA_LOG_ENTRIES : Nat := 2 * 60 * 2

/-- DATA_LOG_ENTRY_INTERVAL_MS constant (SoapBoxDerbyCar.hpp). -/
def DATA_LOG_ENTRY_INTERVAL_MS : Nat := 500

/-- DATA_LOG_OVERFLOW_ALLOWED constant (SoapBoxDerbyCar.hpp). -/
def DATA_LOG_OVERFLOW_ALLOWED : Bool := true

/-- MAX_NON_VOLATILE_CAR_DATA_SIZE_BYTES constant (SoapBoxDerbyCar.hpp). -/
def MAX_NON_VOLATILE_CAR_DATA_SIZE_BYTES : Nat := 256

/-- DATA_LOG_EEPROM_OFFSET = MAX_NON_VOLATILE_CAR_DATA_SIZE_BYTES (SoapBoxDerbyCar.hpp). -/
def DATA_LOG_EEPROM_OFFSET : Nat := MAX_NON_VOLATILE_CAR_DATA_SIZE_BYTES

/-- SERIAL_DATA_TRANSMIT_INTERVAL_MS constant (SoapBoxDerbyCar.hpp). -/
def SERIAL_DATA_TRANSMIT_INTERVAL_MS : Nat := 1000

/-! ## Steering speed controller (SpeedControllers.ino) -/

/-- SteeringDirection enum (SoapBoxDerbyCar.hpp). -/
inductive SteeringDirection
  | LEFT
  | RIGHT
  | CENTER
  | NONE
deriving DecidableEq

/-- Digital inputs of the two steering limit switch pins, as read by
digitalRead in ReadLimitSwitches (0 or 1 on the real hardware). -/
structure LimitSwitchPins where
  steeringLeftLimitSwitchPin : Nat
  steeringRightLimitSwitchPin : Nat
deriving DecidableEq

/-- Member variables of the car touched by the steering code of
SpeedControllers.ino.  m_SteeringSpeed stands for the last value passed to
m_pSteeringSpeedController->SetSpeed, i.e. the realized actuator command. -/
structure SteeringState where
  m_LeftSteeringLimitSwitchValue : Nat
  m_RightSteeringLimitSwitchValue : Nat
  m_SteeringSpeed : Int
  m_SteeringDirection : SteeringDirection
  m_CurrentSteeringValue : Int
deriving DecidableEq

/-- ReadLimitSwitches (Sensors.ino): stores the digitalRead values of both
steering limit switch pins into the member variables (the LED write it also
performs is omitted). -/
def ReadLimitSwitches (pins : LimitSwitchPins) (s : SteeringState) : SteeringState :=
  { s with
      m_LeftSteeringLimitSwitchValue := pins.steeringLeftLimitSwitchPin
      m_RightSteeringLimitSwitchValue := pins.steeringRightLimitSwitchPin }

/-- SetSteeringDirection (SpeedControllers.ino). -/
def SetSteeringDirection (value : Int) (s : SteeringState) : SteeringState :=
  if value > 0 then
    { s with m_SteeringDirection := SteeringDirection.RIGHT }
  else if value < 0 then
    { s with m_SteeringDirection := SteeringDirection.LEFT }
  else
    { s with m_SteeringDirection := SteeringDirection.NONE }

/-- SetSteeringSpeedControllerValue (SpeedControllers.ino lines 69-94):
re-reads the limit switches, forces the command to OFF when it is negative
with the left limit asserted or positive with the right limit asserted, then
updates the speed controller, the direction and m_CurrentSteeringValue. -/
def SetSteeringSpeedControllerValue (pins : LimitSwitchPins) (value : Int)
    (s : SteeringState) : SteeringState :=
  let s1 := ReadLimitSwitches pins s
  let v :=
    if value < 0 ∧ s1.m_LeftSteeringLimitSwitchValue = 1 then OFF
    else if value > 0 ∧ s1.m_RightSteeringLimitSwitchValue = 1 then OFF
    else value
  let s2 := { s1 with m_SteeringSpeed := v }
  let s3 := SetSteeringDirection v s2
  { s3 with m_CurrentSteeringValue := v }

/-- UpdateSpeedControllers, output stage (SpeedControllers.ino lines
254-283): the part of the function from the dead-zone trim of
steerOutputValue onward.  steerOutputValue is the int obtained upstream from
the floating-point normalization of the yaw channel; it enters the model as
a parameter.  The subsequent brake handling does not touch the steering
members and is omitted here. -/
def UpdateSpeedControllersOutputStage (pins : LimitSwitchPins)
    (steerOutputValue : Int) (s : SteeringState) : SteeringState :=
  if steerOutputValue ≤ MIN_OUTPUT_PERCENTAGE ∧ steerOutputValue ≥ -MIN_OUTPUT_PERCENTAGE then
    { s with m_SteeringSpeed := OFF }
  else
    let s1 := ReadLimitSwitches pins s
    let v1 :=
      if steerOutputValue < 0 ∧ s1.m_LeftSteeringLimitSwitchValue = 1 then OFF
      else steerOutputValue
    let v2 :=
      if v1 > 0 ∧ s1.m_RightSteeringLimitSwitchValue = 1 then OFF
      else v1
    let s2 := { s1 with m_SteeringSpeed := v2 }
    let s3 := SetSteeringDirection v2 s2
    { s3 with m_CurrentSteeringValue := v2 }

/-! ## Potentiometers (Potentiometer.ino) -/

/-- Member variables of the car touched by the potentiometer code. -/
structure PotState where
  m_FrontAxlePotentiometerValue : Int
  m_FrontAxlePotMaxLeftValue : Int
  m_FrontAxlePotMaxRightValue : Int
  m_FrontAxlePotCenterValue : Int
  m_LastGoodPotValue : Int
  m_bCalibrationComplete : Bool
deriving DecidableEq

/-- ReadPotentiometers (Potentiometer.ino): stores the analogRead value;
when calibration is complete, a reading beyond the calibrated extremes by
more than the jitter tolerance is discarded in favor of the last good
reading, otherwise the reading becomes the new last good value.  The dead
code after the early return in the source is omitted. -/
def ReadPotentiometers (analogValue : Int) (p : PotState) : PotState :=
  let p1 := { p with m_FrontAxlePotentiometerValue := analogValue }
  if p1.m_bCalibrationComplete then
    if p1.m_FrontAxlePotentiometerValue >
         p1.m_FrontAxlePotMaxLeftValue + POTENTIOMETER_MAX_JITTER_VALUE ∨
       p1.m_FrontAxlePotentiometerValue <
         p1.m_FrontAxlePotMaxRightValue - POTENTIOMETER_MAX_JITTER_VALUE then
      { p1 with m_FrontAxlePotentiometerValue := p1.m_LastGoodPotValue }
    else
      { p1 with m_LastGoodPotValue := p1.m_FrontAxlePotentiometerValue }
  else
    p1

/-- Center computation of CalibrateSteeringPotentiometer (Potentiometer.ino):
m_FrontAxlePotMaxRightValue + ((m_FrontAxlePotMaxLeftValue -
m_FrontAxlePotMaxRightValue) / 2) with C++ truncating division. -/
def centerPotPosition (maxLeftValue maxRightValue : Int) : Int :=
  maxRightValue + (Int.tdiv (maxLeftValue - maxRightValue) 2)

/-- CenterSteeringByPotentiometer (Potentiometer.ino): reads the
potentiometer, then issues a steering command through
SetSteeringSpeedControllerValue: turn right when the filtered reading is at
or above center plus jitter, turn left when at or below center minus jitter,
otherwise OFF.  Returns the updated potentiometer state together with the
command value passed to SetSteeringSpeedControllerValue. -/
def CenterSteeringByPotentiometer (analogValue : Int) (p : PotState) :
    PotState × Int :=
  let p1 := ReadPotentiometers analogValue p
  if p1.m_FrontAxlePotentiometerValue ≥
       p1.m_FrontAxlePotCenterValue + POTENTIOMETER_MAX_JITTER_VALUE then
    (p1, AUTO_TURN_RIGHT_SPEED)
  else if p1.m_FrontAxlePotentiometerValue ≤
       p1.m_FrontAxlePotCenterValue - POTENTIOMETER_MAX_JITTER_VALUE then
    (p1, AUTO_TURN_LEFT_SPEED)
  else
    (p1, OFF)

/-! ## Hall sensors and the autonomous launch phase (Hall.ino, Autonomous.ino) -/

/-- Member variables of the car touched by the hall sensor counting and the
autonomous phase bookkeeping.  The derived floating-point wheel distances
(m_LeftWheelDistanceInches / m_RightWheelDistanceInches) are real-valued
mirrors of the counts and are not part of this model. -/
structure HallState where
  m_LeftHallCount : Nat
  m_RightHallCount : Nat
  m_bIsAutonomousExecuting : Bool
deriving DecidableEq

/-- IncrementLeftHallSensorCount (SoapBoxDerbyCar.hpp): ++m_LeftHallCount,
executed by the left hall sensor ISR on a rising edge. -/
def IncrementLeftHallSensorCount (s : HallState) : HallState :=
  { s with m_LeftHallCount := s.m_LeftHallCount + 1 }

/-- IncrementRightHallSensorCount (SoapBoxDerbyCar.hpp): ++m_RightHallCount,
executed by the right hall sensor ISR on a rising edge. -/
def IncrementRightHallSensorCount (s : HallState) : HallState :=
  { s with m_RightHallCount := s.m_RightHallCount + 1 }

/-- ResetHallSensorCounts (Hall.ino): zeroes both counters. -/
def ResetHallSensorCounts (s : HallState) : HallState :=
  { s with m_LeftHallCount := 0, m_RightHallCount := 0 }

/-- Environment of one iteration of an autonomous loop: the number of rising
edges each hall ISR delivered since the previous iteration, and the value
the iteration observes for IsAutonomousSwitchSet. -/
structure AutoLoopEvent where
  leftEdges : Nat
  rightEdges : Nat
  switchSet : Bool
deriving DecidableEq

/-- Asynchronous hall interrupts delivered during one loop iteration:
leftEdges executions of IncrementLeftHallSensorCount and rightEdges of
IncrementRightHallSensorCount. -/
def applyHallEdges (ev : AutoLoopEvent) (s : HallState) : HallState :=
  IncrementRightHallSensorCount^[ev.rightEdges]
    (IncrementLeftHallSensorCount^[ev.leftEdges] s)

/-- ExitAutonomous (Autonomous.ino), restricted to the members of this
model: resets the hall counters and clears m_bIsAutonomousExecuting (brake,
motors and LEDs are outside HallState). -/
def ExitAutonomous (s : HallState) : HallState :=
  { ResetHallSensorCounts s with m_bIsAutonomousExecuting := false }

/-- Outcome of the launch-wait loop of AutonomousRoutine. -/
inductive LaunchWaitResult
  | launched (s : HallState)
  | cancelled (s : HallState)
  | stillWaiting (s : HallState)
deriving DecidableEq

/-- Launch-wait loop of AutonomousRoutine (Autonomous.ino lines 49-68):
while both counts are below AUTO_HALL_SENSOR_LAUNCH_COUNT, each iteration
observes the autonomous switch and exits through ExitAutonomous when it is
no longer set; hall interrupts fire asynchronously, here applied once per
iteration.  When the loop condition fails, the routine continues to the
Executing phase and sets m_bIsAutonomousExecuting to true.  stillWaiting is
the case of an exhausted event trace with the loop still running. -/
def AutonomousLaunchWait : List AutoLoopEvent → HallState → LaunchWaitResult
  | [], s =>
    if s.m_LeftHallCount < AUTO_HALL_SENSOR_LAUNCH_COUNT ∧
       s.m_RightHallCount < AUTO_HALL_SENSOR_LAUNCH_COUNT then
      LaunchWaitResult.stillWaiting s
    else
      LaunchWaitResult.launched { s with m_bIsAutonomousExecuting := true }
  | ev :: rest, s =>
    if s.m_LeftHallCount < AUTO_HALL_SENSOR_LAUNCH_COUNT ∧
       s.m_RightHallCount < AUTO_HALL_SENSOR_LAUNCH_COUNT then
      if ev.switchSet then
        AutonomousLaunchWait rest (applyHallEdges ev s)
      else
        LaunchWaitResult.cancelled (ExitAutonomous (applyHallEdges ev s))
    else
      LaunchWaitResult.launched { s with m_bIsAutonomousExecuting := true }

/-- Entry of AutonomousRoutine (Autonomous.ino lines 39-61): the hall
counters are reset, then the launch-wait loop runs. -/
def AutonomousRoutineLaunchPhase (evs : List AutoLoopEvent) (s : HallState) :
    LaunchWaitResult :=
  AutonomousLaunchWait evs (ResetHallSensorCounts s)

/-- Main executing loop of AutonomousRoutine (Autonomous.ino lines 72-110),
restricted to HallState: the steering and logging calls of the body write no
hall member, so on this state each iteration only receives the asynchronous
hall interrupts; the loop ends on timeout (trace exhausted) or when the
switch is observed clear. -/
def AutonomousExecutingLoop : List AutoLoopEvent → HallState → HallState
  | [], s => s
  | ev :: rest, s =>
    if ev.switchSet then
      AutonomousExecutingLoop rest (applyHallEdges ev s)
    else
      applyHallEdges ev s

/-! ## Data log (Sensors.ino, DataLogging section) -/

/-- DataLogEntry struct (SoapBoxDerbyCar.hpp).  The wheel distances are
stored through an int32_t conversion of the double members; the converted
values enter the model directly. -/
structure DataLogEntry where
  m_TimeStampMs : Nat
  m_LeftWheelDistanceInches : Int
  m_RightWheelDistanceInches : Int
  m_FrontAxlePotentiometer : Int
deriving DecidableEq

/-- Members of m_NonVolatileCarData used by LogData, plus the RAM data log. -/
structure DataLogState where
  m_DataLog : List DataLogEntry
  m_DataLogIndex : Nat
  m_bDataLogOverflowed : Bool
deriving DecidableEq

/-- LogData (Sensors.ino lines 286-318).  deltaMs is CalcDeltaTimeMs of the
static lastTimeStamp; entry carries the four member values the body stores.
When the interval gate passes and the log has not overflowed (or overflow
writes are allowed), the entry is written at m_DataLogIndex, which then
advances and wraps to 0 with m_bDataLogOverflowed set on reaching
MAX_DATA_LOG_ENTRIES. -/
def LogData (deltaMs : Nat) (entry : DataLogEntry) (s : DataLogState) :
    DataLogState :=
  if deltaMs < DATA_LOG_ENTRY_INTERVAL_MS then s
  else if !s.m_bDataLogOverflowed || DATA_LOG_OVERFLOW_ALLOWED then
    let s1 := { s with m_DataLog := s.m_DataLog.set s.m_DataLogIndex entry }
    let idx := s1.m_DataLogIndex + 1
    if idx = MAX_DATA_LOG_ENTRIES then
      { s1 with m_DataLogIndex := 0, m_bDataLogOverflowed := true }
    else
      { s1 with m_DataLogIndex := idx }
  else
    s

/-- Cleared RAM log: ClearDataLog(RAM_LOG) zeroes the entry array, and the
static initializer starts m_DataLogIndex at 0 with m_bDataLogOverflowed
false. -/
def clearedDataLogState : DataLogState :=
  { m_DataLog := List.replicate MAX_DATA_LOG_ENTRIES ⟨0, 0, 0, 0⟩
    m_DataLogIndex := 0
    m_bDataLogOverflowed := false }

/-- k successive LogData appends, the i-th with interval delta ds i and
entry es i. -/
def logDataIter (ds : Nat → Nat) (es : Nat → DataLogEntry) :
    Nat → DataLogState → DataLogState
  | 0, s => s
  | k + 1, s => LogData (ds k) (es k) (logDataIter ds es k s)

/-! ## EEPROM (Sensors.ino, DataLogging section)

The EEPROM is a byte-addressed store, modelled as a function from address
to byte value.  The generic template helpers copy raw bytes between RAM
objects and EEPROM; RAM objects therefore appear here as the byte lists
their memcpy-level representation consists of.  On the AVR target, within
NonVolatileCarData, m_Header occupies bytes 0-3, m_Incarnation bytes 4-5,
m_bSavedByAuto byte 6, m_bDataLogOverflowed byte 7 and m_DataLogIndex bytes
8-9 (uint32_t is 4 bytes, int 2 bytes, bool 1 byte, no padding), and
sizeof(m_DataLog) = 16 * MAX_DATA_LOG_ENTRIES = 3840. -/

/-- Byte-addressed EEPROM contents. -/
def Eeprom : Type := Nat → Nat

/-- EEPROM.write of one byte. -/
def eepromWriteByte (e : Eeprom) (addr b : Nat) : Eeprom :=
  fun a => if a = addr then b else e a

/-- GenericWriteToEeprom (Sensors.ino lines 226-244): writes the bytes of
the object at offset, offset+1, ..., reading each target byte first and
skipping the write when it already holds the byte. -/
def GenericWriteToEeprom : List Nat → Nat → Eeprom → Eeprom
  | [], _, e => e
  | b :: rest, offset, e =>
    let e1 := if e offset ≠ b then eepromWriteByte e offset b else e
    GenericWriteToEeprom rest (offset + 1) e1

/-- GenericReadFromEeprom (Sensors.ino lines 206-218): reads len bytes
starting at offset. -/
def GenericReadFromEeprom : Nat → Nat → Eeprom → List Nat
  | 0, _, _ => []
  | n + 1, offset, e => e offset :: GenericReadFromEeprom n (offset + 1) e

/-- Byte size of the m_DataLog array: sizeof(DataLogEntry) = 16 times
MAX_DATA_LOG_ENTRIES = 240. -/
def DATA_LOG_SIZE_BYTES : Nat := 16 * MAX_DATA_LOG_ENTRIES

/-- The four characters of NON_VOLATILE_CAR_DATA_HEADER ("SBDC") as the
bytes WriteLogToEeprom stores through operator[]. -/
def NON_VOLATILE_CAR_DATA_HEADER_BYTES : List Nat := [83, 66, 68, 67]

/-- offsetof(NonVolatileCarData, m_Header). -/
def OFFSETOF_HEADER : Nat := 0

/-- offsetof(NonVolatileCarData, m_Incarnation). -/
def OFFSETOF_INCARNATION : Nat := 4

/-- offsetof(NonVolatileCarData, m_bSavedByAuto). -/
def OFFSETOF_SAVED_BY_AUTO : Nat := 6

/-- offsetof(NonVolatileCarData, m_bDataLogOverflowed). -/
def OFFSETOF_OVERFLOWED : Nat := 7

/-- offsetof(NonVolatileCarData, m_DataLogIndex). -/
def OFFSETOF_DATA_LOG_INDEX : Nat := 8

/-- Byte-level image of the RAM members WriteLogToEeprom serializes: the
data log array, m_Incarnation (2 bytes), the bFromAuto argument (1 byte),
m_bDataLogOverflowed (1 byte) and m_DataLogIndex (2 bytes). -/
structure LogFlushImage where
  dataLogBytes : List Nat
  incarnationBytes : List Nat
  savedByAutoBytes : List Nat
  overflowedBytes : List Nat
  dataLogIndexBytes : List Nat

/-- WriteLogToEeprom (Sensors.ino lines 404-444, method at 421): writes the
data log at DATA_LOG_EEPROM_OFFSET, then the four header characters one
byte at a time at offsets 0-3, then m_Incarnation, bFromAuto,
m_bDataLogOverflowed and m_DataLogIndex at their struct offsets, all through
the read-before-write GenericWriteToEeprom.  (The GetEepromCarData call of
the source only feeds sizeof(eepromCarData.m_Header) = 4, the loop bound.) -/
def WriteLogToEeprom (img : LogFlushImage) (e : Eeprom) : Eeprom :=
  let e1 := GenericWriteToEeprom img.dataLogBytes DATA_LOG_EEPROM_OFFSET e
  let e2 := GenericWriteToEeprom NON_VOLATILE_CAR_DATA_HEADER_BYTES OFFSETOF_HEADER e1
  let e3 := GenericWriteToEeprom img.incarnationBytes OFFSETOF_INCARNATION e2
  let e4 := GenericWriteToEeprom img.savedByAutoBytes OFFSETOF_SAVED_BY_AUTO e3
  let e5 := GenericWriteToEeprom img.overflowedBytes OFFSETOF_OVERFLOWED e4
  GenericWriteToEeprom img.dataLogIndexBytes OFFSETOF_DATA_LOG_INDEX e5

/-- Byte-level image of the RAM members RestoreLogFromEeprom fills. -/
structure LogRestoreImage where
  dataLogBytes : List Nat
  overflowedBytes : List Nat
  dataLogIndexBytes : List Nat
deriving DecidableEq

/-- RestoreLogFromEeprom (Sensors.ino lines 408-413): reads the data log
from DATA_LOG_EEPROM_OFFSET and the m_bDataLogOverflowed and m_DataLogIndex
members from their struct offsets. -/
def RestoreLogFromEeprom (e : Eeprom) : LogRestoreImage :=
  { dataLogBytes := GenericReadFromEeprom DATA_LOG_SIZE_BYTES DATA_LOG_EEPROM_OFFSET e
    overflowedBytes := GenericReadFromEeprom 1 OFFSETOF_OVERFLOWED e
    dataLogIndexBytes := GenericReadFromEeprom 2 OFFSETOF_DATA_LOG_INDEX e }

/-! ## Serial car data transmission (SerialPort.ino) -/

/-- NUM_FIELDS_TO_TRANSMIT local constant of SendCarSerialData
(SerialPort.ino line 101). -/
def NUM_FIELDS_TO_TRANSMIT : Nat := 10

/-- Member variables SendCarSerialData snapshots into serialData. -/
structure CarSnapshot where
  m_CurrentSteeringValue : Int
  m_bBrakeApplied : Bool
  m_LeftHallCount : Nat
  m_RightHallCount : Nat
  m_LeftSteeringLimitSwitchValue : Nat
  m_RightSteeringLimitSwitchValue : Nat
  m_FrontAxlePotentiometerValue : Int
  m_bIsAutonomousExecuting : Bool
deriving DecidableEq

/-- C++ bool to int32_t conversion used when packing flags. -/
def boolToInt (b : Bool) : Int := if b then 1 else 0

/-- The packing sequence of SendCarSerialData (SerialPort.ino lines
112-120): the eight member values stored through serialData at post-
incremented transmitDataIndex, in source order.  The length of this list is
the final value of transmitDataIndex. -/
def packCarSerialData (c : CarSnapshot) : List Int :=
  [c.m_CurrentSteeringValue,
   boolToInt c.m_bBrakeApplied,
   (c.m_LeftHallCount : Int),
   (c.m_RightHallCount : Int),
   (c.m_LeftSteeringLimitSwitchValue : Int),
   (c.m_RightSteeringLimitSwitchValue : Int),
   c.m_FrontAxlePotentiometerValue,
   boolToInt c.m_bIsAutonomousExecuting]

/-- Observable outcome of one SendCarSerialData call. -/
inductive SerialSendResult
  | notTransmitted
  | fatalAssert
  | transmitted (header : String) (fields : List Int)
deriving DecidableEq

/-- SendCarSerialData (SerialPort.ino lines 96-162).  elapsedMs is
CalcDeltaTimeMs of the static lastTimeStamp.  When the minimum transmit
interval has elapsed, the eight snapshot members are packed, then
ASSERT(transmitDataIndex == NUM_FIELDS_TO_TRANSMIT) runs; a failed ASSERT
calls ProcessAssert (DebugUtils.ino), which never returns, modelled as
fatalAssert.  Otherwise the SBDC header line and the fields are printed
(SERIAL_PORT_USE_RAW_DATA is false, so one field per println). -/
def SendCarSerialData (elapsedMs : Nat) (c : CarSnapshot) : SerialSendResult :=
  if elapsedMs < SERIAL_DATA_TRANSMIT_INTERVAL_MS then
    SerialSendResult.notTransmitted
  else
    let serialData := packCarSerialData c
    if serialData.length = NUM_FIELDS_TO_TRANSMIT then
      SerialSendResult.transmitted "SBDC" serialData
    else
      SerialSendResult.fatalAssert

/-! ## Constructor handling of the non-volatile record
(SoapBoxDerbyCar.ino, Sensors.ino) -/

/-- NonVolatileCarData struct (SoapBoxDerbyCar.hpp) at value level, as used
by the constructor.  m_Header holds the uint32_t read from or written to
the header word. -/
structure NonVolatileCarData where
  m_Header : Nat
  m_Incarnation : Int
  m_bSavedByAuto : Bool
  m_bDataLogOverflowed : Bool
  m_DataLogIndex : Int
deriving DecidableEq

/-- Static initializer of m_NonVolatileCarData: {0, 0, false, false, 0}
(SoapBoxDerbyCar.ino). -/
def staticInitNonVolatileCarData : NonVolatileCarData :=
  { m_Header := 0
    m_Incarnation := 0
    m_bSavedByAuto := false
    m_bDataLogOverflowed := false
    m_DataLogIndex := 0 }

/-- The uint32_t value whose four bytes are the characters SBDC, i.e. the
header value a record written by WriteLogToEeprom carries (little-endian
AVR: bytes 83, 66, 68, 67). -/
def SBDC_HEADER_VALUE : Nat := 83 + 256 * (66 + 256 * (68 + 256 * 67))

/-- The four bytes the constructor memcpy copies into m_Header.  The source
copies sizeof(m_Header) = 4 bytes from the address of the global String
object NON_VOLATILE_CAR_DATA_HEADER, i.e. the first four bytes of the
String object representation (not the SBDC characters); the resulting value
is toolchain-dependent and no theorem below depends on it. -/
def HEADER_MEMCPY_VALUE : Nat := 0

/-- Non-volatile record initialization of the SoapBoxDerbyCar constructor
(SoapBoxDerbyCar.ino): GetEepromCarData reads the record bytes from EEPROM
offset 0 into eepromCarData (here the already-decoded parameter); then the
RAM record keeps its static-initializer fields except that m_Header is
overwritten by the memcpy and m_Incarnation is set to the value read from
EEPROM plus one.  No comparison of the stored header occurs. -/
def constructorNonVolatileInit (eepromCarData : NonVolatileCarData) :
    NonVolatileCarData :=
  { staticInitNonVolatileCarData with
      m_Header := HEADER_MEMCPY_VALUE
      m_Incarnation := eepromCarData.m_Incarnation + 1 }

/-! ## Steering calibration, return-to-center phase (Potentiometer.ino) -/

/-- One sensor sample available during an iteration of the return-to-center
loop: the analogRead value together with the digital values the two
steering limit switches would show at that moment.  The loop body of the
source reads only the potentiometer; the limit switch fields exist so that
statements can refer to limit switch trips occurring during the phase. -/
structure ReturnPhaseSample where
  analogValue : Int
  leftLimitSwitch : Nat
  rightLimitSwitch : Nat
deriving DecidableEq

/-- The do-while loop of the return-to-center phase (Potentiometer.ino):
each iteration delays and calls ReadPotentiometers, and the loop repeats
while m_FrontAxlePotentiometerValue < m_FrontAxlePotCenterValue.  none means
the sample trace ran out with the loop still spinning (the stuck case noted
in the source). -/
def CalibrationReturnLoop : List ReturnPhaseSample → PotState → Option PotState
  | [], _ => none
  | sample :: rest, p =>
    let p1 := ReadPotentiometers sample.analogValue p
    if p1.m_FrontAxlePotentiometerValue < p1.m_FrontAxlePotCenterValue then
      CalibrationReturnLoop rest p1
    else
      some p1

/-- Return-to-center phase of CalibrateSteeringPotentiometer
(Potentiometer.ino lines 108-126): the centering command is issued, the
do-while loop polls the potentiometer until it reaches the computed center,
the motor is turned off, and then m_LastGoodPotValue is set to the center
and m_bCalibrationComplete is set to true. -/
def CalibrateReturnToCenterPhase (samples : List ReturnPhaseSample)
    (p : PotState) : Option PotState :=
  (CalibrationReturnLoop samples p).map fun p1 =>
    { p1 with
        m_LastGoodPotValue := p1.m_FrontAxlePotCenterValue
        m_bCalibrationComplete := true }

/-! ## Theorems -/

/-- Helper: SetSteeringDirection does not change the speed, the limit switch
values or the current steering value. -/
theorem SetSteeringDirection_preserves (v : Int) (s : SteeringState) :
    (SetSteeringDirection v s).m_SteeringSpeed = s.m_SteeringSpeed ∧
    (SetSteeringDirection v s).m_CurrentSteeringValue = s.m_CurrentSteeringValue := by
  unfold SetSteeringDirection
  split_ifs <;> exact ⟨rfl, rfl⟩

/-- C1: for every invocation of SetSteeringSpeedControllerValue with a
command in [-100, 100], if the command is negative and the left steering
limit switch reads asserted after the re-read, or positive and the right
limit switch reads asserted, then the value passed to the steering speed
controller and stored as the current steering value is 0, for every caller
and every prior state. -/
theorem steering_limit_interlock (pins : LimitSwitchPins) (value : Int)
    (s : SteeringState) (hlo : -100 ≤ value) (hhi : value ≤ 100) :
    (value < 0 → pins.steeringLeftLimitSwitchPin = 1 →
      (SetSteeringSpeedControllerValue pins value s).m_SteeringSpeed = 0 ∧
      (SetSteeringSpeedControllerValue pins value s).m_CurrentSteeringValue = 0) ∧
    (0 < value → pins.steeringRightLimitSwitchPin = 1 →
      (SetSteeringSpeedControllerValue pins value s).m_SteeringSpeed = 0 ∧
      (SetSteeringSpeedControllerValue pins value s).m_CurrentSteeringValue = 0) := by
  constructor
  · intro hneg hpin
    simp [SetSteeringSpeedControllerValue, ReadLimitSwitches, SetSteeringDirection,
      OFF, hneg, hpin]
  · intro hpos hpin
    have hnneg : ¬ value < 0 := by omega
    simp [SetSteeringSpeedControllerValue, ReadLimitSwitches, SetSteeringDirection,
      OFF, hpos, hpin, hnneg]

/-- Witness for steering_limit_interlock at pins (1, 0), command -50 and a
concrete prior state. -/
theorem steering_limit_interlock_witness :
    (-100 : Int) ≤ -50 ∧ (-50 : Int) ≤ 100 ∧
    (SetSteeringSpeedControllerValue ⟨1, 0⟩ (-50)
      ⟨0, 0, 0, SteeringDirection.NONE, 0⟩).m_SteeringSpeed = 0 ∧
    (SetSteeringSpeedControllerValue ⟨1, 0⟩ (-50)
      ⟨0, 0, 0, SteeringDirection.NONE, 0⟩).m_CurrentSteeringValue = 0 :=
  ⟨by norm_num, by norm_num,
    (steering_limit_interlock ⟨1, 0⟩ (-50) ⟨0, 0, 0, SteeringDirection.NONE, 0⟩
      (by norm_num) (by norm_num)).1 (by norm_num) rfl⟩

/-- C4 counterexample: SetSteeringSpeedControllerValue applies no dead
zone.  At command 5 (whose magnitude is below MIN_OUTPUT_PERCENTAGE = 10)
with neither limit switch asserted, the value passed to the steering speed
controller is 5, not 0. -/
theorem dead_zone_counterexample :
    |(5 : Int)| ≤ MIN_OUTPUT_PERCENTAGE ∧
    (SetSteeringSpeedControllerValue ⟨0, 0⟩ 5
      ⟨0, 0, 0, SteeringDirection.NONE, 0⟩).m_SteeringSpeed = 5 ∧
    (SetSteeringSpeedControllerValue ⟨0, 0⟩ 5
      ⟨0, 0, 0, SteeringDirection.NONE, 0⟩).m_CurrentSteeringValue = 5 := by
  refine ⟨by decide, ?_, ?_⟩ <;> decide

/-- C4 amended: the dead zone lives only on the manual-input path.  In
UpdateSpeedControllers, whenever |steerOutputValue| is at most
MIN_OUTPUT_PERCENTAGE the steering speed controller is set to OFF; but
SetSteeringSpeedControllerValue applies no dead zone: whenever neither
limit switch reads asserted, the realized command equals the requested
value, in particular a nonzero requested value of magnitude at most 10 is
realized unchanged. -/
theorem dead_zone_only_on_manual_path (pins : LimitSwitchPins)
    (steerOutputValue value : Int) (s : SteeringState)
    (hdead : steerOutputValue ≤ MIN_OUTPUT_PERCENTAGE ∧
      steerOutputValue ≥ -MIN_OUTPUT_PERCENTAGE)
    (hleft : pins.steeringLeftLimitSwitchPin ≠ 1)
    (hright : pins.steeringRightLimitSwitchPin ≠ 1) :
    (UpdateSpeedControllersOutputStage pins steerOutputValue s).m_SteeringSpeed = OFF ∧
    (SetSteeringSpeedControllerValue pins value s).m_SteeringSpeed = value ∧
    (SetSteeringSpeedControllerValue pins value s).m_CurrentSteeringValue = value := by
  refine ⟨?_, ?_, ?_⟩
  · simp [UpdateSpeedControllersOutputStage, hdead]
  · unfold SetSteeringSpeedControllerValue ReadLimitSwitches SetSteeringDirection OFF
    simp only [hleft, hright, and_false, if_false]
    split_ifs <;> simp
  · unfold SetSteeringSpeedControllerValue ReadLimitSwitches SetSteeringDirection OFF
    simp only [hleft, hright, and_false, if_false]

/-- Witness for dead_zone_only_on_manual_path at pins (0, 0),
steerOutputValue 5, value 5 and a concrete prior state. -/
theorem dead_zone_only_on_manual_path_witness :
    ((5 : Int) ≤ MIN_OUTPUT_PERCENTAGE ∧ (5 : Int) ≥ -MIN_OUTPUT_PERCENTAGE) ∧
    (0 : Nat) ≠ 1 ∧
    (UpdateSpeedControllersOutputStage ⟨0, 0⟩ 5
      ⟨0, 0, 0, SteeringDirection.NONE, 0⟩).m_SteeringSpeed = OFF ∧
    (SetSteeringSpeedControllerValue ⟨0, 0⟩ 5
      ⟨0, 0, 0, SteeringDirection.NONE, 0⟩).m_SteeringSpeed = 5 :=
  ⟨by decide, by decide,
    (dead_zone_only_on_manual_path ⟨0, 0⟩ 5 5 ⟨0, 0, 0, SteeringDirection.NONE, 0⟩
      (by decide) (by decide) (by decide)).1,
    (dead_zone_only_on_manual_path ⟨0, 0⟩ 5 5 ⟨0, 0, 0, SteeringDirection.NONE, 0⟩
      (by decide) (by decide) (by decide)).2.1⟩

/-- C9: for calibration extremes with the left extreme numerically larger
than the right one, the computed center value lies between them
inclusively. -/
theorem calibration_center_between (maxLeftValue maxRightValue : Int)
    (h : maxRightValue < maxLeftValue) :
    maxRightValue ≤ centerPotPosition maxLeftValue maxRightValue ∧
    centerPotPosition maxLeftValue maxRightValue ≤ maxLeftValue := by
  unfold centerPotPosition
  have h0 : (0 : Int) ≤ maxLeftValue - maxRightValue := by omega
  have h1 : 0 ≤ (maxLeftValue - maxRightValue).tdiv 2 :=
    Int.tdiv_nonneg h0 (by norm_num)
  have h2 : (maxLeftValue - maxRightValue).tdiv 2 ≤ maxLeftValue - maxRightValue := by
    rw [Int.tdiv_eq_ediv h0 (by norm_num)]
    exact Int.ediv_le_self 2 h0
  omega

/-- Witness for calibration_center_between at the extremes (800, 200). -/
theorem calibration_center_between_witness :
    (200 : Int) < 800 ∧
    (200 : Int) ≤ centerPotPosition 800 200 ∧ centerPotPosition 800 200 ≤ 800 :=
  ⟨by norm_num, calibration_center_between 800 200 (by norm_num)⟩

/-- C10 counterexample: with extremes (800, 200) the computed center is
500, but at the reading 500 + jitter = 505 (a boundary the claim includes
in the command-0 band) CenterSteeringByPotentiometer issues the turn-right
command 80, not 0. -/
theorem center_by_pot_boundary_counterexample :
    centerPotPosition 800 200 = 500 ∧
    (CenterSteeringByPotentiometer (500 + POTENTIOMETER_MAX_JITTER_VALUE)
      ⟨500, 800, 200, centerPotPosition 800 200, 500, true⟩).2 =
        AUTO_TURN_RIGHT_SPEED ∧
    AUTO_TURN_RIGHT_SPEED ≠ OFF := by
  refine ⟨by decide, by decide, by decide⟩

/-- C10 amended: with extremes (800, 200) the computed center is 500; for
readings strictly inside the tolerance band (500 - jitter < r < 500 +
jitter, boundaries excluded) the issued command is 0; readings at or above
500 + jitter (up to the calibration filter bound 800 + jitter) issue the
turn-right command, and readings at or below 500 - jitter (down to
200 - jitter) issue the turn-left command. -/
theorem center_by_pot_tolerance_band (cur lastGood r : Int) :
    centerPotPosition 800 200 = 500 ∧
    (500 - POTENTIOMETER_MAX_JITTER_VALUE < r →
      r < 500 + POTENTIOMETER_MAX_JITTER_VALUE →
      (CenterSteeringByPotentiometer r ⟨cur, 800, 200, 500, lastGood, true⟩).2 = OFF) ∧
    (500 + POTENTIOMETER_MAX_JITTER_VALUE ≤ r →
      r ≤ 800 + POTENTIOMETER_MAX_JITTER_VALUE →
      (CenterSteeringByPotentiometer r ⟨cur, 800, 200, 500, lastGood, true⟩).2 =
        AUTO_TURN_RIGHT_SPEED) ∧
    (200 - POTENTIOMETER_MAX_JITTER_VALUE ≤ r →
      r ≤ 500 - POTENTIOMETER_MAX_JITTER_VALUE →
      (CenterSteeringByPotentiometer r ⟨cur, 800, 200, 500, lastGood, true⟩).2 =
        AUTO_TURN_LEFT_SPEED) := by
  refine ⟨by decide, ?_, ?_, ?_⟩ <;>
  · intro h1 h2
    unfold POTENTIOMETER_MAX_JITTER_VALUE at h1 h2
    unfold CenterSteeringByPotentiometer ReadPotentiometers
      POTENTIOMETER_MAX_JITTER_VALUE AUTO_TURN_RIGHT_SPEED AUTO_TURN_LEFT_SPEED OFF
    dsimp only
    split_ifs <;> simp_all <;> omega

/-- Witness for center_by_pot_tolerance_band at the in-band reading 500
and at the boundary readings 505 and 495. -/
theorem center_by_pot_tolerance_band_witness :
    ((500 : Int) - POTENTIOMETER_MAX_JITTER_VALUE < 500 ∧
      (500 : Int) < 500 + POTENTIOMETER_MAX_JITTER_VALUE) ∧
    (CenterSteeringByPotentiometer 500 ⟨200, 800, 200, 500, 200, true⟩).2 = OFF ∧
    (CenterSteeringByPotentiometer 505 ⟨200, 800, 200, 500, 200, true⟩).2 =
      AUTO_TURN_RIGHT_SPEED ∧
    (CenterSteeringByPotentiometer 495 ⟨200, 800, 200, 500, 200, true⟩).2 =
      AUTO_TURN_LEFT_SPEED :=
  ⟨by decide,
    (center_by_pot_tolerance_band 200 200 500).2.1 (by decide) (by decide),
    (center_by_pot_tolerance_band 200 200 505).2.2.1 (by decide) (by decide),
    (center_by_pot_tolerance_band 200 200 495).2.2.2 (by decide) (by decide)⟩

/-- C8 counterexample: a return-to-center run in which the left limit
switch reads asserted during the phase, yet the run terminates with
m_bCalibrationComplete = true; the code distinguishes nothing and signals
no failure. -/
theorem calibration_no_failure_counterexample :
    (⟨600, 1, 0⟩ : ReturnPhaseSample).leftLimitSwitch = 1 ∧
    CalibrateReturnToCenterPhase [⟨600, 1, 0⟩]
      ⟨200, 800, 200, 500, 200, false⟩ =
      some ⟨600, 800, 200, 500, 500, true⟩ ∧
    (⟨600, 800, 200, 500, 500, true⟩ : PotState).m_bCalibrationComplete = true := by
  refine ⟨rfl, by decide, rfl⟩

/-- C8 amended: the return-to-center phase of
CalibrateSteeringPotentiometer polls only the potentiometer; limit switch
trips during the phase are not observed, and whenever the do-while loop
exits (the filtered reading reached the computed center),
m_bCalibrationComplete is set to true unconditionally, for every sample
trace including ones in which either limit switch reads asserted.  Failure
is signalled only as non-termination of the phase (the loop never exits),
and there is no automatic retry inside the routine. -/
theorem calibration_complete_unconditional (samples : List ReturnPhaseSample)
    (p p1 : PotState)
    (h : CalibrateReturnToCenterPhase samples p = some p1) :
    p1.m_bCalibrationComplete = true ∧
    p1.m_LastGoodPotValue = p1.m_FrontAxlePotCenterValue := by
  unfold CalibrateReturnToCenterPhase at h
  rcases Option.map_eq_some'.mp h with ⟨q, _, rfl⟩
  exact ⟨rfl, rfl⟩

/-- Witness for calibration_complete_unconditional on a concrete
single-sample trace with a tripped left limit switch. -/
theorem calibration_complete_unconditional_witness :
    CalibrateReturnToCenterPhase [⟨600, 1, 0⟩] ⟨200, 800, 200, 500, 200, false⟩ =
      some ⟨600, 800, 200, 500, 500, true⟩ ∧
    (⟨600, 800, 200, 500, 500, true⟩ : PotState).m_bCalibrationComplete = true :=
  ⟨by decide,
    (calibration_complete_unconditional [⟨600, 1, 0⟩] ⟨200, 800, 200, 500, 200, false⟩
      ⟨600, 800, 200, 500, 500, true⟩ (by decide)).1⟩

/-- C7 counterexample: a stored record whose header word does not match the
SBDC byte pattern (header 0, incarnation 7) is not treated as
uninitialized: the constructor still sets the RAM incarnation to the stored
value plus one (8), not to the default incarnation plus one (1). -/
theorem header_validation_counterexample :
    (⟨0, 7, false, false, 0⟩ : NonVolatileCarData).m_Header ≠ SBDC_HEADER_VALUE ∧
    (constructorNonVolatileInit ⟨0, 7, false, false, 0⟩).m_Incarnation = 7 + 1 ∧
    (constructorNonVolatileInit ⟨0, 7, false, false, 0⟩).m_Incarnation ≠
      staticInitNonVolatileCarData.m_Incarnation + 1 := by
  refine ⟨by decide, rfl, by decide⟩

/-- C7 amended: the constructor never validates the stored record: for
every value of the record read from EEPROM, matching header or not, the RAM
incarnation is set to the stored incarnation plus one, and the RAM header
is unconditionally overwritten by the memcpy; the remaining RAM record
fields keep their static-initializer defaults. -/
theorem incarnation_increments_unconditionally (eepromCarData : NonVolatileCarData) :
    (constructorNonVolatileInit eepromCarData).m_Incarnation =
      eepromCarData.m_Incarnation + 1 ∧
    (constructorNonVolatileInit eepromCarData).m_Header = HEADER_MEMCPY_VALUE ∧
    (constructorNonVolatileInit eepromCarData).m_bDataLogOverflowed =
      staticInitNonVolatileCarData.m_bDataLogOverflowed :=
  ⟨rfl, rfl, rfl⟩

/-- C2: whenever the minimum transmit interval has elapsed,
SendCarSerialData packs exactly 8 snapshot fields while
NUM_FIELDS_TO_TRANSMIT is 10, so the internal
ASSERT(transmitDataIndex == NUM_FIELDS_TO_TRANSMIT) fails and the fatal
ProcessAssert branch is taken on every such invocation; the function never
reaches the transmission of the header and fields. -/
theorem send_car_serial_data_assert_fires (elapsedMs : Nat) (c : CarSnapshot) :
    (packCarSerialData c).length = 8 ∧
    (packCarSerialData c).length ≠ NUM_FIELDS_TO_TRANSMIT ∧
    SendCarSerialData (SERIAL_DATA_TRANSMIT_INTERVAL_MS + elapsedMs) c =
      SerialSendResult.fatalAssert := by
  refine ⟨rfl, by norm_num [packCarSerialData, NUM_FIELDS_TO_TRANSMIT], ?_⟩
  have hgate : ¬ SERIAL_DATA_TRANSMIT_INTERVAL_MS + elapsedMs <
      SERIAL_DATA_TRANSMIT_INTERVAL_MS := by omega
  unfold SendCarSerialData
  simp [packCarSerialData, NUM_FIELDS_TO_TRANSMIT, hgate]

/-- Helper: iterating the left hall increment adds n to the left count. -/
theorem iterate_incrementLeft (n : Nat) (s : HallState) :
    IncrementLeftHallSensorCount^[n] s =
      { s with m_LeftHallCount := s.m_LeftHallCount + n } := by
  induction n generalizing s with
  | zero => simp
  | succ n ih =>
    rw [Function.iterate_succ_apply, ih]
    unfold IncrementLeftHallSensorCount
    have hn : s.m_LeftHallCount + 1 + n = s.m_LeftHallCount + (n + 1) := by omega
    simp [hn]

/-- Helper: iterating the right hall increment adds n to the right count. -/
theorem iterate_incrementRight (n : Nat) (s : HallState) :
    IncrementRightHallSensorCount^[n] s =
      { s with m_RightHallCount := s.m_RightHallCount + n } := by
  induction n generalizing s with
  | zero => simp
  | succ n ih =>
    rw [Function.iterate_succ_apply, ih]
    unfold IncrementRightHallSensorCount
    have hn : s.m_RightHallCount + 1 + n = s.m_RightHallCount + (n + 1) := by omega
    simp [hn]

/-- Helper: one batch of hall interrupts adds the edge counts. -/
theorem applyHallEdges_spec (ev : AutoLoopEvent) (s : HallState) :
    applyHallEdges ev s =
      { s with
          m_LeftHallCount := s.m_LeftHallCount + ev.leftEdges
          m_RightHallCount := s.m_RightHallCount + ev.rightEdges } := by
  unfold applyHallEdges
  rw [iterate_incrementLeft, iterate_incrementRight]

/-- Helper: a launch-wait run that reaches the Executing transition ends
with the executing flag set, at least one count at the launch threshold,
and counts no smaller than at loop entry. -/
theorem launchWait_launched_inv (evs : List AutoLoopEvent) (s s' : HallState)
    (h : AutonomousLaunchWait evs s = LaunchWaitResult.launched s') :
    s'.m_bIsAutonomousExecuting = true ∧
    (AUTO_HALL_SENSOR_LAUNCH_COUNT ≤ s'.m_LeftHallCount ∨
     AUTO_HALL_SENSOR_LAUNCH_COUNT ≤ s'.m_RightHallCount) ∧
    s.m_LeftHallCount ≤ s'.m_LeftHallCount ∧
    s.m_RightHallCount ≤ s'.m_RightHallCount := by
  induction evs generalizing s with
  | nil =>
    unfold AutonomousLaunchWait at h
    split_ifs at h with hc
    all_goals
      first
      | exact LaunchWaitResult.noConfusion h
      | (injection h with h2
         subst h2
         unfold AUTO_HALL_SENSOR_LAUNCH_COUNT at hc ⊢
         refine ⟨rfl, ?_, ?_, ?_⟩ <;> simp <;> omega)
  | cons ev rest ih =>
    unfold AutonomousLaunchWait at h
    split_ifs at h with hc hsw
    all_goals
      first
      | exact LaunchWaitResult.noConfusion h
      | (injection h with h2
         subst h2
         unfold AUTO_HALL_SENSOR_LAUNCH_COUNT at hc ⊢
         refine ⟨rfl, ?_, ?_, ?_⟩ <;> simp <;> omega)
      | (obtain ⟨h1, h2, h3, h4⟩ := ih (applyHallEdges ev s) h
         rw [applyHallEdges_spec] at h3 h4
         simp at h3 h4
         exact ⟨h1, h2, by omega, by omega⟩)

/-- Helper: the executing loop never decreases the hall counts. -/
theorem execLoop_monotone (evs : List AutoLoopEvent) (s : HallState) :
    s.m_LeftHallCount ≤ (AutonomousExecutingLoop evs s).m_LeftHallCount ∧
    s.m_RightHallCount ≤ (AutonomousExecutingLoop evs s).m_RightHallCount := by
  induction evs generalizing s with
  | nil => exact ⟨le_refl _, le_refl _⟩
  | cons ev rest ih =>
    unfold AutonomousExecutingLoop
    split_ifs
    · obtain ⟨h1, h2⟩ := ih (applyHallEdges ev s)
      rw [applyHallEdges_spec] at h1 h2 ⊢
      simp at h1 h2
      constructor <;> omega
    · rw [applyHallEdges_spec]
      constructor <;> simp

/-- C3 counterexample: a launch-wait run of AutonomousRoutine in which the
left wheel turns three times exits the waiting loop into the Executing
phase with the left counter at 3, not 0: the counters are reset before the
waiting loop, not at the WaitingToLaunch to Executing transition, and the
loop only exits once a counter reaches the launch threshold. -/
theorem launch_transition_counterexample :
    AutonomousRoutineLaunchPhase [⟨1, 0, true⟩, ⟨1, 0, true⟩, ⟨1, 0, true⟩]
      ⟨5, 7, false⟩ = LaunchWaitResult.launched ⟨3, 0, true⟩ ∧
    (⟨3, 0, true⟩ : HallState).m_LeftHallCount ≠ 0 := by
  refine ⟨by decide, by decide⟩

/-- C3 amended: within one autonomous run the wheel odometry counters are
non-decreasing (only the hall interrupt increments write them between the
reset at run entry and the reset at exit), both counters are exactly 0
immediately after the reset at run entry (the start of the launch wait),
and at the moment the launch wait exits into the Executing phase (the
executing flag becoming true) at least one counter has reached
AUTO_HALL_SENSOR_LAUNCH_COUNT, so the counters are not 0 there. -/
theorem hall_counts_run_invariant :
    (∀ s : HallState, (ResetHallSensorCounts s).m_LeftHallCount = 0 ∧
       (ResetHallSensorCounts s).m_RightHallCount = 0) ∧
    (∀ (evs : List AutoLoopEvent) (s s' : HallState),
       AutonomousRoutineLaunchPhase evs s = LaunchWaitResult.launched s' →
       s'.m_bIsAutonomousExecuting = true ∧
       (AUTO_HALL_SENSOR_LAUNCH_COUNT ≤ s'.m_LeftHallCount ∨
        AUTO_HALL_SENSOR_LAUNCH_COUNT ≤ s'.m_RightHallCount)) ∧
    (∀ (evs : List AutoLoopEvent) (s s' : HallState),
       AutonomousLaunchWait evs s = LaunchWaitResult.launched s' →
       s.m_LeftHallCount ≤ s'.m_LeftHallCount ∧
       s.m_RightHallCount ≤ s'.m_RightHallCount) ∧
    (∀ (evs : List AutoLoopEvent) (s : HallState),
       s.m_LeftHallCount ≤ (AutonomousExecutingLoop evs s).m_LeftHallCount ∧
       s.m_RightHallCount ≤ (AutonomousExecutingLoop evs s).m_RightHallCount) := by
  refine ⟨fun s => ⟨rfl, rfl⟩, ?_, ?_, ?_⟩
  · intro evs s s' h
    obtain ⟨h1, h2, _, _⟩ := launchWait_launched_inv evs (ResetHallSensorCounts s) s' h
    exact ⟨h1, h2⟩
  · intro evs s s' h
    obtain ⟨_, _, h3, h4⟩ := launchWait_launched_inv evs s s' h
    exact ⟨h3, h4⟩
  · exact execLoop_monotone

/-- Witness for hall_counts_run_invariant on the concrete three-rotation
launch trace. -/
theorem hall_counts_run_invariant_witness :
    AutonomousRoutineLaunchPhase [⟨1, 0, true⟩, ⟨1, 0, true⟩, ⟨1, 0, true⟩]
      ⟨5, 7, false⟩ = LaunchWaitResult.launched ⟨3, 0, true⟩ ∧
    ((⟨3, 0, true⟩ : HallState).m_bIsAutonomousExecuting = true ∧
     (AUTO_HALL_SENSOR_LAUNCH_COUNT ≤ (⟨3, 0, true⟩ : HallState).m_LeftHallCount ∨
      AUTO_HALL_SENSOR_LAUNCH_COUNT ≤ (⟨3, 0, true⟩ : HallState).m_RightHallCount)) :=
  ⟨by decide,
    hall_counts_run_invariant.2.1 [⟨1, 0, true⟩, ⟨1, 0, true⟩, ⟨1, 0, true⟩]
      ⟨5, 7, false⟩ ⟨3, 0, true⟩ (by decide)⟩

/-- Helper: the shape of one gate-passing LogData append. -/
theorem LogData_step (deltaMs : Nat) (entry : DataLogEntry) (s : DataLogState)
    (hgate : ¬ deltaMs < DATA_LOG_ENTRY_INTERVAL_MS) :
    LogData deltaMs entry s =
      (if s.m_DataLogIndex + 1 = MAX_DATA_LOG_ENTRIES then
        { m_DataLog := s.m_DataLog.set s.m_DataLogIndex entry
          m_DataLogIndex := 0
          m_bDataLogOverflowed := true }
      else
        { m_DataLog := s.m_DataLog.set s.m_DataLogIndex entry
          m_DataLogIndex := s.m_DataLogIndex + 1
          m_bDataLogOverflowed := s.m_bDataLogOverflowed }) := by
  unfold LogData
  rw [if_neg hgate, if_pos (by simp [DATA_LOG_OVERFLOW_ALLOWED])]

/-- Helper: the state after k gate-passing appends on a cleared log: the
cursor is k mod capacity, the overflow flag is set exactly when at least
capacity appends happened, and the entry array keeps its capacity. -/
theorem logDataIter_cleared_inv (ds : Nat → Nat) (es : Nat → DataLogEntry)
    (hds : ∀ i, DATA_LOG_ENTRY_INTERVAL_MS ≤ ds i) (k : Nat) :
    (logDataIter ds es k clearedDataLogState).m_DataLogIndex =
      k % MAX_DATA_LOG_ENTRIES ∧
    ((logDataIter ds es k clearedDataLogState).m_bDataLogOverflowed = true ↔
      MAX_DATA_LOG_ENTRIES ≤ k) ∧
    (logDataIter ds es k clearedDataLogState).m_DataLog.length =
      MAX_DATA_LOG_ENTRIES := by
  induction k with
  | zero =>
    refine ⟨by simp [logDataIter, clearedDataLogState], ?_, ?_⟩
    · simp [logDataIter, clearedDataLogState, MAX_DATA_LOG_ENTRIES]
    · simp [logDataIter, clearedDataLogState]
  | succ k ih =>
    obtain ⟨hidx, hov, hlen⟩ := ih
    have hstep := LogData_step (ds k) (es k)
      (logDataIter ds es k clearedDataLogState) (by have := hds k; omega)
    unfold logDataIter
    rw [hstep]
    split_ifs with hw
    · rw [hidx] at hw
      unfold MAX_DATA_LOG_ENTRIES at hw
      refine ⟨?_, ?_, ?_⟩
      · show 0 = (k + 1) % MAX_DATA_LOG_ENTRIES
        unfold MAX_DATA_LOG_ENTRIES
        omega
      · show true = true ↔ MAX_DATA_LOG_ENTRIES ≤ k + 1
        unfold MAX_DATA_LOG_ENTRIES
        exact ⟨fun _ => by omega, fun _ => rfl⟩
      · simpa using hlen
    · rw [hidx] at hw
      unfold MAX_DATA_LOG_ENTRIES at hw
      refine ⟨?_, ?_, ?_⟩
      · show (logDataIter ds es k clearedDataLogState).m_DataLogIndex + 1 =
          (k + 1) % MAX_DATA_LOG_ENTRIES
        rw [hidx]
        unfold MAX_DATA_LOG_ENTRIES
        omega
      · show ((logDataIter ds es k clearedDataLogState).m_bDataLogOverflowed = true ↔
          MAX_DATA_LOG_ENTRIES ≤ k + 1)
        rw [hov]
        unfold MAX_DATA_LOG_ENTRIES
        constructor <;> intro hcase <;> omega
      · simpa using hlen

/-- Helper: the (k+1)-th gate-passing append on a cleared log stores its
entry at the cursor position k mod capacity. -/
theorem logDataIter_writes_at_cursor (ds : Nat → Nat) (es : Nat → DataLogEntry)
    (hds : ∀ i, DATA_LOG_ENTRY_INTERVAL_MS ≤ ds i) (k : Nat) :
    ((logDataIter ds es (k + 1) clearedDataLogState).m_DataLog)[k % MAX_DATA_LOG_ENTRIES]? =
      some (es k) := by
  obtain ⟨hidx, hov, hlen⟩ := logDataIter_cleared_inv ds es hds k
  have hstep := LogData_step (ds k) (es k)
    (logDataIter ds es k clearedDataLogState) (by have := hds k; omega)
  unfold logDataIter
  rw [hstep]
  have hlt : k % MAX_DATA_LOG_ENTRIES <
      (logDataIter ds es k clearedDataLogState).m_DataLog.length := by
    rw [hlen]
    exact Nat.mod_lt _ (by simp [MAX_DATA_LOG_ENTRIES])
  split_ifs with hw <;>
  · simp only
    rw [hidx]
    exact List.getElem?_set_eq_of_lt (es k) hlt

/-- C5 counterexample: on a cleared capacity-240 log with overflow writes
enabled, the overflow flag is already true after the 240th gate-passing
append (the claim asserts it is still false after each of the first 240
appends and becomes true only on the 241st). -/
theorem log_overflow_after_capacity_appends :
    (logDataIter (fun _ => 500) (fun _ => ⟨0, 0, 0, 0⟩) MAX_DATA_LOG_ENTRIES
      clearedDataLogState).m_bDataLogOverflowed = true := by
  have h := (logDataIter_cleared_inv (fun _ => 500) (fun _ => ⟨0, 0, 0, 0⟩)
    (fun _ => le_refl _) MAX_DATA_LOG_ENTRIES).2.1
  exact h.mpr (le_refl _)

/-- C5 amended: starting from a cleared log with overflow writes enabled,
under N+1 gate-passing appends (N = MAX_DATA_LOG_ENTRIES = 240) the
overflow flag is false after each of the first N-1 appends and becomes true
exactly once, at the N-th append (the advance that wraps the cursor from
N-1 back to 0), staying true afterwards; each append writes its entry at
the current cursor (position k mod N for the (k+1)-th append) and advances
the cursor modulo N. -/
theorem log_overflow_on_wrap (ds : Nat → Nat) (es : Nat → DataLogEntry)
    (hds : ∀ i, DATA_LOG_ENTRY_INTERVAL_MS ≤ ds i) (k : Nat) :
    (logDataIter ds es k clearedDataLogState).m_DataLogIndex =
      k % MAX_DATA_LOG_ENTRIES ∧
    ((logDataIter ds es k clearedDataLogState).m_bDataLogOverflowed = true ↔
      MAX_DATA_LOG_ENTRIES ≤ k) ∧
    ((logDataIter ds es (k + 1) clearedDataLogState).m_DataLog)[k % MAX_DATA_LOG_ENTRIES]? =
      some (es k) :=
  ⟨(logDataIter_cleared_inv ds es hds k).1,
   (logDataIter_cleared_inv ds es hds k).2.1,
   logDataIter_writes_at_cursor ds es hds k⟩

/-- Witness for log_overflow_on_wrap: after one append the cursor is 1, the
flag is still clear, and the first entry sits at position 0. -/
theorem log_overflow_on_wrap_witness :
    (logDataIter (fun _ => 500) (fun _ => ⟨0, 0, 0, 0⟩) 1
      clearedDataLogState).m_DataLogIndex = 1 % MAX_DATA_LOG_ENTRIES ∧
    ((logDataIter (fun _ => 500) (fun _ => ⟨0, 0, 0, 0⟩) 1
      clearedDataLogState).m_bDataLogOverflowed = true ↔
      MAX_DATA_LOG_ENTRIES ≤ 1) ∧
    ((logDataIter (fun _ => 500) (fun _ => ⟨0, 0, 0, 0⟩) 2
      clearedDataLogState).m_DataLog)[1 % MAX_DATA_LOG_ENTRIES]? =
      some ⟨0, 0, 0, 0⟩ :=
  log_overflow_on_wrap (fun _ => 500) (fun _ => ⟨0, 0, 0, 0⟩)
    (fun _ => le_refl _) 1

/-- Helper: a write leaves every address below its offset untouched. -/
theorem genericWrite_preserves_below (data : List Nat) (offset : Nat)
    (e : Eeprom) (a : Nat) (h : a < offset) :
    GenericWriteToEeprom data offset e a = e a := by
  induction data generalizing offset e with
  | nil => rfl
  | cons b rest ih =>
    show GenericWriteToEeprom rest (offset + 1)
      (if e offset ≠ b then eepromWriteByte e offset b else e) a = e a
    rw [ih (offset + 1) _ (by omega)]
    split_ifs
    · show eepromWriteByte e offset b a = e a
      unfold eepromWriteByte
      rw [if_neg (by omega)]
    · rfl

/-- Helper: a write leaves every address at or beyond offset plus the data
length untouched. -/
theorem genericWrite_preserves_above (data : List Nat) (offset : Nat)
    (e : Eeprom) (a : Nat) (h : offset + data.length ≤ a) :
    GenericWriteToEeprom data offset e a = e a := by
  induction data generalizing offset e with
  | nil => rfl
  | cons b rest ih =>
    show GenericWriteToEeprom rest (offset + 1)
      (if e offset ≠ b then eepromWriteByte e offset b else e) a = e a
    have hlen : (b :: rest).length = rest.length + 1 := rfl
    rw [ih (offset + 1) _ (by rw [hlen] at h; omega)]
    split_ifs
    · show eepromWriteByte e offset b a = e a
      unfold eepromWriteByte
      rw [if_neg (by rw [hlen] at h; omega)]
    · rfl

/-- Helper: reads only depend on the bytes of the read window. -/
theorem genericRead_congr (len offset : Nat) (e1 e2 : Eeprom)
    (h : ∀ i, i < len → e1 (offset + i) = e2 (offset + i)) :
    GenericReadFromEeprom len offset e1 = GenericReadFromEeprom len offset e2 := by
  induction len generalizing offset with
  | zero => rfl
  | succ n ih =>
    show e1 offset :: GenericReadFromEeprom n (offset + 1) e1 =
      e2 offset :: GenericReadFromEeprom n (offset + 1) e2
    have hhead : e1 offset = e2 offset := by
      have := h 0 (by omega)
      simpa using this
    rw [hhead, ih (offset + 1) fun i hi => by
      have := h (i + 1) (by omega)
      rw [show offset + 1 + i = offset + (i + 1) by omega]
      exact this]

/-- Helper: reading back a freshly written window returns the written
bytes, the skipped writes of already-correct bytes included. -/
theorem genericRead_after_write (data : List Nat) (offset : Nat) (e : Eeprom) :
    GenericReadFromEeprom data.length offset (GenericWriteToEeprom data offset e) =
      data := by
  induction data generalizing offset e with
  | nil => rfl
  | cons b rest ih =>
    show (GenericWriteToEeprom rest (offset + 1)
        (if e offset ≠ b then eepromWriteByte e offset b else e)) offset ::
      GenericReadFromEeprom rest.length (offset + 1)
        (GenericWriteToEeprom rest (offset + 1)
          (if e offset ≠ b then eepromWriteByte e offset b else e)) =
      b :: rest
    rw [genericWrite_preserves_below _ _ _ _ (by omega)]
    rw [ih (offset + 1) _]
    split_ifs with hne
    · show eepromWriteByte e offset b offset :: rest = b :: rest
      unfold eepromWriteByte
      rw [if_pos rfl]
    · simp at hne
      rw [hne]

/-- C6: flushing the data log and the non-volatile record with
WriteLogToEeprom and then reading them back with RestoreLogFromEeprom
reproduces exactly the flushed data log bytes, overflow flag byte and log
index bytes, for every prior EEPROM contents, the read-before-write byte
skipping notwithstanding. -/
theorem eeprom_log_roundtrip (img : LogFlushImage) (e : Eeprom)
    (hlog : img.dataLogBytes.length = DATA_LOG_SIZE_BYTES)
    (hinc : img.incarnationBytes.length = 2)
    (hsav : img.savedByAutoBytes.length = 1)
    (hov : img.overflowedBytes.length = 1)
    (hidx : img.dataLogIndexBytes.length = 2) :
    RestoreLogFromEeprom (WriteLogToEeprom img e) =
      { dataLogBytes := img.dataLogBytes
        overflowedBytes := img.overflowedBytes
        dataLogIndexBytes := img.dataLogIndexBytes } := by
  have hwrite : WriteLogToEeprom img e =
      GenericWriteToEeprom img.dataLogIndexBytes 8
        (GenericWriteToEeprom img.overflowedBytes 7
          (GenericWriteToEeprom img.savedByAutoBytes 6
            (GenericWriteToEeprom img.incarnationBytes 4
              (GenericWriteToEeprom NON_VOLATILE_CAR_DATA_HEADER_BYTES 0
                (GenericWriteToEeprom img.dataLogBytes 256 e))))) := rfl
  have hhdrlen : NON_VOLATILE_CAR_DATA_HEADER_BYTES.length = 4 := rfl
  have habove : ∀ a, 256 ≤ a → (WriteLogToEeprom img e) a =
      (GenericWriteToEeprom img.dataLogBytes 256 e) a := by
    intro a ha
    rw [hwrite,
      genericWrite_preserves_above img.dataLogIndexBytes 8 _ a (by rw [hidx]; omega),
      genericWrite_preserves_above img.overflowedBytes 7 _ a (by rw [hov]; omega),
      genericWrite_preserves_above img.savedByAutoBytes 6 _ a (by rw [hsav]; omega),
      genericWrite_preserves_above img.incarnationBytes 4 _ a (by rw [hinc]; omega),
      genericWrite_preserves_above NON_VOLATILE_CAR_DATA_HEADER_BYTES 0 _ a
        (by rw [hhdrlen]; omega)]
  have hfield1 : GenericReadFromEeprom DATA_LOG_SIZE_BYTES 256
      (WriteLogToEeprom img e) = img.dataLogBytes := by
    rw [← hlog]
    calc GenericReadFromEeprom img.dataLogBytes.length 256 (WriteLogToEeprom img e)
        = GenericReadFromEeprom img.dataLogBytes.length 256
            (GenericWriteToEeprom img.dataLogBytes 256 e) :=
          genericRead_congr _ _ _ _ (fun i _ => habove (256 + i) (by omega))
      _ = img.dataLogBytes := genericRead_after_write img.dataLogBytes 256 e
  have hfield2 : GenericReadFromEeprom 1 7 (WriteLogToEeprom img e) =
      img.overflowedBytes := by
    rw [← hov, hwrite]
    calc GenericReadFromEeprom img.overflowedBytes.length 7
          (GenericWriteToEeprom img.dataLogIndexBytes 8
            (GenericWriteToEeprom img.overflowedBytes 7
              (GenericWriteToEeprom img.savedByAutoBytes 6
                (GenericWriteToEeprom img.incarnationBytes 4
                  (GenericWriteToEeprom NON_VOLATILE_CAR_DATA_HEADER_BYTES 0
                    (GenericWriteToEeprom img.dataLogBytes 256 e))))))
        = GenericReadFromEeprom img.overflowedBytes.length 7
            (GenericWriteToEeprom img.overflowedBytes 7
              (GenericWriteToEeprom img.savedByAutoBytes 6
                (GenericWriteToEeprom img.incarnationBytes 4
                  (GenericWriteToEeprom NON_VOLATILE_CAR_DATA_HEADER_BYTES 0
                    (GenericWriteToEeprom img.dataLogBytes 256 e))))) := by
          apply genericRead_congr
          intro i hi
          rw [hov] at hi
          exact genericWrite_preserves_below img.dataLogIndexBytes 8 _ _ (by omega)
      _ = img.overflowedBytes := genericRead_after_write img.overflowedBytes 7 _
  have hfield3 : GenericReadFromEeprom 2 8 (WriteLogToEeprom img e) =
      img.dataLogIndexBytes := by
    rw [← hidx, hwrite]
    exact genericRead_after_write img.dataLogIndexBytes 8 _
  show ({ dataLogBytes := GenericReadFromEeprom DATA_LOG_SIZE_BYTES 256
            (WriteLogToEeprom img e)
          overflowedBytes := GenericReadFromEeprom 1 7 (WriteLogToEeprom img e)
          dataLogIndexBytes :=
            GenericReadFromEeprom 2 8 (WriteLogToEeprom img e) } : LogRestoreImage) = _
  rw [hfield1, hfield2, hfield3]

/-- Witness for eeprom_log_roundtrip on an all-zero EEPROM and a concrete
flush image of the correct byte sizes. -/
theorem eeprom_log_roundtrip_witness :
    (List.replicate DATA_LOG_SIZE_BYTES 0).length = DATA_LOG_SIZE_BYTES ∧
    RestoreLogFromEeprom (WriteLogToEeprom
      ⟨List.replicate DATA_LOG_SIZE_BYTES 0, [0, 0], [1], [0], [5, 0]⟩
      (fun _ => 0)) =
      { dataLogBytes := List.replicate DATA_LOG_SIZE_BYTES 0
        overflowedBytes := [0]
        dataLogIndexBytes := [5, 0] } :=
  ⟨by simp,
    eeprom_log_roundtrip ⟨List.replicate DATA_LOG_SIZE_BYTES 0, [0, 0], [1], [0], [5, 0]⟩
      (fun _ => 0) (by simp) rfl rfl rfl rfl⟩

end SoapBoxDerbyCar
